import Mathlib

set_option maxRecDepth 16000
set_option maxHeartbeats 1000000

/-!
Verification development for the weather-data normalization and aggregation
engine of `mcp-weather-sse.py` (class `WeatherSSEServer`): the methods
`_format_current_weather`, `_format_forecast` and `_get_wind_direction`.

The provider documents are untyped nested JSON-shaped values, modelled by
`PyVal`.  Python's dynamic-dispatch failures (`AttributeError`, `TypeError`,
`IndexError`, `KeyError`, `ValueError`, `ZeroDivisionError`) are modelled by
`PyErr`; fallible Python expressions become `Except PyErr` computations.
Numbers are modelled exactly: Python ints as `Int` and Python floats as `Rat`
(the floats occurring in the claims are exactly representable decimals, for
which IEEE-754 double arithmetic agrees with exact rational arithmetic at
every rounding decision relevant here).
-/

/-- An untyped Python/JSON value as handled by the normalizers.  Dicts are
modelled as insertion-ordered association lists with pairwise-distinct keys
(the shape `json.loads` produces); lookups take the first match. -/
inductive PyVal where
  | int (n : Int)
  | float (q : Rat)
  | str (s : String)
  | list (xs : List PyVal)
  | dict (kvs : List (String × PyVal))

/-- The Python exceptions the formatting code can raise.  The payload is the
`str(e)` text used by the `except` handlers when they build the error report. -/
inductive PyErr where
  | keyErr (msg : String)
  | indexErr (msg : String)
  | attrErr (msg : String)
  | typeErr (msg : String)
  | valueErr (msg : String)
  | zeroDivErr (msg : String)
deriving Repr, DecidableEq

/-- Python `type(v).__name__`, used in Python error messages. -/
def pyTypeName : PyVal → String
  | .int _ => "int"
  | .float _ => "float"
  | .str _ => "str"
  | .list _ => "list"
  | .dict _ => "dict"

/-- Message of the `AttributeError` raised when `v.attr` is accessed on a
value lacking the attribute (dict methods on non-dicts, str methods on
non-strs). -/
def noAttrMsg (v : PyVal) (attr : String) : String :=
  "\x27" ++ pyTypeName v ++ "\x27 object has no attribute \x27" ++ attr ++ "\x27"

/-- First-match association-list lookup (Python dict lookup; the modelled
dicts have distinct keys). -/
def assocFind (k : String) : List (String × α) → Option α
  | [] => none
  | (k2, v) :: rest => if k2 = k then some v else assocFind k rest

/-- Python `d.get(k, default)` on a value statically known to be a dict. -/
def dGet (l : List (String × PyVal)) (k : String) (d : PyVal) : PyVal :=
  (assocFind k l).getD d

/-- Python `v.get(k, default)` on an arbitrary value: dicts look the key up, every
other type raises `AttributeError` (`.get` is a dict method). -/
def pyGet (v : PyVal) (k : String) (d : PyVal) : Except PyErr PyVal :=
  match v with
  | .dict l => .ok (dGet l k d)
  | _ => .error (.attrErr (noAttrMsg v "get"))

/-- Python `v[i]` for a non-negative index `i`: lists and strings index (raising
`IndexError` past the end), dicts raise `KeyError` (an integer is not one of
our string keys), numbers raise `TypeError`. -/
def pyIndex (v : PyVal) (i : Nat) : Except PyErr PyVal :=
  match v with
  | .list xs =>
      match xs.get? i with
      | some x => .ok x
      | none => .error (.indexErr "list index out of range")
  | .str s =>
      match s.toList.get? i with
      | some c => .ok (.str (String.mk [c]))
      | none => .error (.indexErr "string index out of range")
  | .dict _ => .error (.keyErr (toString i))
  | v => .error (.typeErr ("\x27" ++ pyTypeName v ++ "\x27 object is not subscriptable"))

/-- Python `v.split(sep)`: a str method (`String.splitOn` matches Python's
explicit-separator `str.split`, including `"".split(" ") == [""]`). -/
def pySplit (v : PyVal) (sep : String) : Except PyErr (List String) :=
  match v with
  | .str s => .ok (s.splitOn sep)
  | _ => .error (.attrErr (noAttrMsg v "split"))

/-- Python `xs[i]` on a Python list of strings. -/
def listIndex (xs : List String) (i : Nat) : Except PyErr String :=
  match xs.get? i with
  | some x => .ok x
  | none => .error (.indexErr "list index out of range")

/-- Python `v.lower()` (ASCII inputs). -/
def pyLower (v : PyVal) : Except PyErr String :=
  match v with
  | .str s => .ok s.toLower
  | _ => .error (.attrErr (noAttrMsg v "lower"))

/-- Python `v.capitalize()`: first character upper-cased, the rest lower-cased. -/
def pyCapitalize (v : PyVal) : Except PyErr String :=
  match v with
  | .str s =>
      match s.toList with
      | [] => .ok ""
      | c :: cs => .ok (String.mk (c.toUpper :: cs.map Char.toLower))
  | _ => .error (.attrErr (noAttrMsg v "capitalize"))

/-- The exact rational denoted by a Python number, if `v` is one. -/
def toQ : PyVal → Option Rat
  | .int n => some (n : Rat)
  | .float q => some q
  | _ => none

/-- Python `v > n` against an int literal: numeric comparison, `TypeError` for
non-numbers (Python refuses ordered comparison between e.g. str and int). -/
def pyGtInt (v : PyVal) (n : Int) : Except PyErr Bool :=
  match toQ v with
  | some q => .ok (decide ((n : Rat) < q))
  | none =>
      .error (.typeErr ("\x27>\x27 not supported between instances of \x27" ++
        pyTypeName v ++ "\x27 and \x27int\x27"))

/-- Python `v < n` against an int literal. -/
def pyLtInt (v : PyVal) (n : Int) : Except PyErr Bool :=
  match toQ v with
  | some q => .ok (decide (q < (n : Rat)))
  | none =>
      .error (.typeErr ("\x27<\x27 not supported between instances of \x27" ++
        pyTypeName v ++ "\x27 and \x27int\x27"))

/-- Python `a > b` between document values, as used by `max`/`min`: numbers compare
numerically, strings lexicographically by code point; any other combination
raises `TypeError` (container comparisons do not occur in these documents). -/
def pyGtVal (a b : PyVal) : Except PyErr Bool :=
  match a, b with
  | .str s, .str t => .ok (decide (t < s))
  | a, b =>
      match toQ a, toQ b with
      | some qa, some qb => .ok (decide (qb < qa))
      | _, _ =>
          .error (.typeErr ("\x27>\x27 not supported between instances of \x27" ++
            pyTypeName a ++ "\x27 and \x27" ++ pyTypeName b ++ "\x27"))

/-- Python `a + b` as used by `sum`: int+int stays int, any other numeric pair is a
float, non-numbers raise `TypeError`. -/
def pyAdd (a b : PyVal) : Except PyErr PyVal :=
  match a, b with
  | .int n, .int m => .ok (.int (n + m))
  | a, b =>
      match toQ a, toQ b with
      | some qa, some qb => .ok (.float (qa + qb))
      | _, _ =>
          .error (.typeErr ("unsupported operand type(s) for +: \x27" ++
            pyTypeName a ++ "\x27 and \x27" ++ pyTypeName b ++ "\x27"))

/-- Python `sum(xs)`: left fold of `pyAdd` from the int `0`. -/
def pySum (xs : List PyVal) : Except PyErr PyVal :=
  xs.foldlM pyAdd (.int 0)

/-- Python `a / b`: true division, always yielding a float; `ZeroDivisionError` on a
zero divisor, `TypeError` on non-numbers. -/
def pyDiv (a b : PyVal) : Except PyErr PyVal :=
  match toQ a, toQ b with
  | some qa, some qb =>
      if qb = 0 then .error (.zeroDivErr "division by zero")
      else .ok (.float (qa / qb))
  | _, _ =>
      .error (.typeErr ("unsupported operand type(s) for /: \x27" ++
        pyTypeName a ++ "\x27 and \x27" ++ pyTypeName b ++ "\x27"))

/-- One step of Python's `max` scan: keep `x` when `x > cur`. -/
def pyMaxStep (cur x : PyVal) : Except PyErr PyVal := do
  let b ← pyGtVal x cur
  pure (if b then x else cur)

/-- Python `max(xs)`: `ValueError` on an empty sequence, else a left scan keeping the
first maximal element. -/
def pyMax (xs : List PyVal) : Except PyErr PyVal :=
  match xs with
  | [] => .error (.valueErr "max() arg is an empty sequence")
  | x :: rest => rest.foldlM pyMaxStep x

/-- One step of Python's `min` scan: keep `x` when `x < cur`. -/
def pyMinStep (cur x : PyVal) : Except PyErr PyVal := do
  let b ← pyGtVal cur x
  pure (if b then x else cur)

/-- Python `min(xs)`: `ValueError` on an empty sequence. -/
def pyMin (xs : List PyVal) : Except PyErr PyVal :=
  match xs with
  | [] => .error (.valueErr "min() arg is an empty sequence")
  | x :: rest => rest.foldlM pyMinStep x

/-- Python `k in data` for a top-level dict. -/
def hasKey (l : List (String × PyVal)) (k : String) : Bool :=
  (assocFind k l).isSome

/-- Python `data[k]` for a top-level dict: `KeyError` when absent (its `str` is the
`repr` of the key). -/
def dictSubscript (l : List (String × PyVal)) (k : String) : Except PyErr PyVal :=
  match assocFind k l with
  | some v => .ok v
  | none => .error (.keyErr ("\x27" ++ k ++ "\x27"))

/-- Python `for item in v`: lists yield their elements, strings their characters,
dicts their keys; numbers raise `TypeError`. -/
def pyIter (v : PyVal) : Except PyErr (List PyVal) :=
  match v with
  | .list xs => .ok xs
  | .str s => .ok (s.toList.map (fun c => .str (String.mk [c])))
  | .dict kvs => .ok (kvs.map (fun p => .str p.1))
  | v => .error (.typeErr ("\x27" ++ pyTypeName v ++ "\x27 object is not iterable"))

/-- Round half to even (Python 3 `round` and `format` rounding). -/
def roundHalfEven (q : Rat) : Int :=
  if q - Rat.floor q < 1 / 2 then Rat.floor q
  else if 1 / 2 < q - Rat.floor q then Rat.floor q + 1
  else if (Rat.floor q) % 2 = 0 then Rat.floor q else Rat.floor q + 1

/-- Digit string of a scaled integer with a decimal point `prec` digits from
the right (`prec ≥ 1`): the core of Python's fixed-point float rendering. -/
def fixedOfScaled (scaled : Int) (prec : Nat) : String :=
  let sign := if scaled < 0 then "-" else ""
  let ds := (toString scaled.natAbs).toList
  let ds := List.replicate (prec + 1 - ds.length) (Char.ofNat 48) ++ ds
  sign ++ String.mk (ds.take (ds.length - prec)) ++ "." ++ String.mk (ds.drop (ds.length - prec))

/-- Python `str(x)` for a Python float holding the exact decimal value `q`: the
shortest decimal expansion, with at least one fractional digit.  (Floats in
the modelled documents are exactly representable short decimals, for which
CPython's shortest-repr algorithm prints exactly this.) -/
def floatRepr (q : Rat) : String :=
  let k := ((List.range 31).find? (fun k => (q * (10 : Rat) ^ k).den = 1)).getD 30
  let k := max k 1
  fixedOfScaled (q * (10 : Rat) ^ k).num k

/-- Python `format(x, ".<prec>f")` on the float value `q`: round half to even at the
last kept digit. -/
def formatFixed (q : Rat) (prec : Nat) : String :=
  if prec = 0 then toString (roundHalfEven q)
  else fixedOfScaled (roundHalfEven (q * (10 : Rat) ^ prec)) prec

mutual

/-- Python `repr(v)` (used by `str` for values nested inside containers). -/
def pyRepr : PyVal → String
  | .int n => toString n
  | .float q => floatRepr q
  | .str s => "\x27" ++ s ++ "\x27"
  | .list xs => "[" ++ String.intercalate ", " (pyReprMany xs) ++ "]"
  | .dict kvs => "\x7b" ++ String.intercalate ", " (pyReprPairs kvs) ++ "\x7d"

def pyReprMany : List PyVal → List String
  | [] => []
  | x :: xs => pyRepr x :: pyReprMany xs

def pyReprPairs : List (String × PyVal) → List String
  | [] => []
  | (k, v) :: xs => ("\x27" ++ k ++ "\x27: " ++ pyRepr v) :: pyReprPairs xs

end

/-- Python `str(v)` / f-string interpolation of a document value. -/
def pyStr : PyVal → String
  | .str s => s
  | v => pyRepr v

/-- Python `format(v, spec)` with a `.Nf` spec: numbers format, anything else raises
(`ValueError` in CPython). -/
def pyFormatFixed (v : PyVal) (prec : Nat) : Except PyErr String :=
  match toQ v with
  | some q => .ok (formatFixed q prec)
  | none =>
      .error (.valueErr ("Unknown format code \x27f\x27 for object of type \x27" ++
        pyTypeName v ++ "\x27"))

/-- Boolean substring test on character lists (`needle in haystack` for
Python strings, and a tool for stating facts about rendered reports). -/
def hasInfix : List Char → List Char → Bool
  | pat, [] => pat.isEmpty
  | pat, c :: rest => pat.isPrefixOf (c :: rest) || hasInfix pat rest

/-- Python `sub in s` for Python strings. -/
def strContains (s sub : String) : Bool :=
  hasInfix sub.toList s.toList

/-- The 16-entry compass table of `_get_wind_direction` (source lines
319-322). -/
def windDirections : List String :=
  ["N", "NNE", "NE", "ENE", "E", "ESE", "SE", "SSE",
   "S", "SSW", "SW", "WSW", "W", "WNW", "NW", "NNW"]

/-- Python `_get_wind_direction` on an exact numeric angle:
`index = round(degrees / (360 / 16)) % 16` with Python's half-to-even
rounding, then the table entry at that index (always in range, so the `getD`
default is never consulted). -/
def getWindDirection (degrees : Rat) : String :=
  let index : Int :=
    (roundHalfEven (degrees / ((360 : Rat) / (windDirections.length : Rat)))) % (windDirections.length : Int)
  windDirections.getD index.toNat "N"

/-- Python `self._get_wind_direction(wind_deg)` applied to a document value: the
division inside raises `TypeError` on a non-number. -/
def pyWindDirection (v : PyVal) : Except PyErr String :=
  match toQ v with
  | some q => .ok (getWindDirection q)
  | none =>
      .error (.typeErr ("unsupported operand type(s) for /: \x27" ++
        pyTypeName v ++ "\x27 and \x27float\x27"))

/-- Temperature unit selection, source line 146/219. -/
def tempUnit (units : String) : String :=
  if units = "metric" then "°C" else "°F"

/-- Wind-speed unit selection, source line 147/220. -/
def speedUnit (units : String) : String :=
  if units = "metric" then "m/s" else "mph"

/-- Lines 185-194: the `precipitation_info` list.  A block is appended only
when the key is present AND the accumulated amount is strictly positive. -/
def currentPrecipitation (data : List (String × PyVal)) : Except PyErr (List String) := do
  let info : List String := []
  let info ← if hasKey data "rain" then do
      let rain_1h ← pyGet (← dictSubscript data "rain") "1h" (.int 0)
      let pos ← pyGtInt rain_1h 0
      pure (if pos then info ++ ["🌧️ " ++ pyStr rain_1h ++ "mm of rain has fallen in the last hour"] else info)
    else pure info
  let info ← if hasKey data "snow" then do
      let snow_1h ← pyGet (← dictSubscript data "snow") "1h" (.int 0)
      let pos ← pyGtInt snow_1h 0
      pure (if pos then info ++ ["❄️ " ++ pyStr snow_1h ++ "mm of snow has accumulated in the last hour"] else info)
    else pure info
  pure info

/-- The `try` block of `_format_current_weather` (source lines 149-212),
statement by statement. -/
def currentTryBody (data : List (String × PyVal)) (temp_unit speed_unit : String) :
    Except PyErr String := do
  let location_name := dGet data "name" (.str "Unknown")
  let country ← pyGet (dGet data "sys" (.dict [])) "country" (.str "Unknown")
  let temp ← pyGet (dGet data "main" (.dict [])) "temp" (.int 0)
  let feels_like ← pyGet (dGet data "main" (.dict [])) "feels_like" (.int 0)
  let humidity ← pyGet (dGet data "main" (.dict [])) "humidity" (.int 0)
  let pressure ← pyGet (dGet data "main" (.dict [])) "pressure" (.int 0)
  let wind_speed ← pyGet (dGet data "wind" (.dict [])) "speed" (.int 0)
  let wind_deg ← pyGet (dGet data "wind" (.dict [])) "deg" (.int 0)
  let wind_direction ← pyWindDirection wind_deg
  let weather_main ← pyGet (← pyIndex (dGet data "weather" (.list [.dict []])) 0) "main" (.str "Unknown")
  let weather_desc ← pyCapitalize
    (← pyGet (← pyIndex (dGet data "weather" (.list [.dict []])) 0) "description" (.str "Unknown"))
  let visibility ← pyDiv (dGet data "visibility" (.int 0)) (.int 1000)
  let cloudiness ← pyGet (dGet data "clouds" (.dict [])) "all" (.int 0)
  let weather_str := "🌍 Weather Report for " ++ pyStr location_name ++ ", " ++ pyStr country ++ "\n\n"
  let weather_str := weather_str ++ "Right now, it\x27s " ++ pyStr temp ++ temp_unit ++
    " with " ++ weather_desc.toLower ++ ". "
  let weather_str := weather_str ++ "The temperature feels like " ++ pyStr feels_like ++ temp_unit ++
    " due to the current conditions. "
  let windy ← pyGtInt wind_speed 0
  let weather_str := weather_str ++
    (if windy then
      "Winds are blowing from the " ++ wind_direction ++ " at " ++ pyStr wind_speed ++ " " ++ speed_unit ++ ". "
    else "The air is calm with minimal wind. ")
  let weather_str := weather_str ++ "\n\nThe atmosphere shows " ++ pyStr humidity ++ "% humidity"
  let cloudy ← pyGtInt cloudiness 0
  let weather_str := weather_str ++ (if cloudy then " with " ++ pyStr cloudiness ++ "% cloud cover" else "")
  let weather_str := weather_str ++ ". Visibility extends to " ++ (← pyFormatFixed visibility 1) ++ " kilometers"
  let weather_str := weather_str ++ ", and the barometric pressure reads " ++ pyStr pressure ++ " hPa."
  let precipitation_info ← currentPrecipitation data
  let weather_str := weather_str ++
    (if precipitation_info.isEmpty then "" else "\n\n" ++ String.intercalate ". " precipitation_info ++ ".")
  let weather_str := weather_str ++ "\n\n📝 Summary: "
  let wm ← pyLower weather_main
  if wm = "rain" ∨ wm = "drizzle" ∨ wm = "thunderstorm" then
    pure (weather_str ++ "Don\x27t forget your umbrella!")
  else if wm = "snow" then
    pure (weather_str ++ "Bundle up and watch for snow conditions!")
  else if wm = "clear" then do
    let hot ← pyGtInt temp 20
    if hot then pure (weather_str ++ "Great weather for outdoor activities!")
    else do
      let cold ← pyLtInt temp 10
      if cold then pure (weather_str ++ "Clear but chilly - dress warmly!")
      else pure (weather_str ++ "Typical " ++ wm ++ " conditions for this area.")
  else
    pure (weather_str ++ "Typical " ++ wm ++ " conditions for this area.")

/-- The `except (KeyError, IndexError)` clause shared by both formatters:
`str(e)` for the two caught exception types, `none` for every other
exception (which therefore propagates out of the method). -/
def caughtByFormatter : PyErr → Option String
  | .keyErr m => some m
  | .indexErr m => some m
  | _ => none

/-- Python `_format_current_weather(data, units)` (source lines 145-216).  `.ok` is
a returned string — either the weather report or the formatted error text of
a caught `KeyError`/`IndexError`; `.error` is an exception escaping the
method. -/
def _format_current_weather (data : List (String × PyVal)) (units : String) :
    Except PyErr String :=
  match currentTryBody data (tempUnit units) (speedUnit units) with
  | .ok s => .ok s
  | .error e =>
      match caughtByFormatter e with
      | some m => .ok ("Error formatting weather data: " ++ m)
      | none => .error e

/-- One per-sample entry of a daily forecast bucket: the dict literal built
at source lines 237-251.  `time` and `weather_desc` are always Python strs
when the entry is built; every other field is a raw document value. -/
structure FEntry where
  time : String
  temp : PyVal
  feels_like : PyVal
  min_temp : PyVal
  max_temp : PyVal
  humidity : PyVal
  weather_main : PyVal
  weather_desc : String
  wind_speed : PyVal
  wind_deg : PyVal
  cloudiness : PyVal
  rain : PyVal
  snow : PyVal

/-- Python `k in v`: dict key membership, list membership (string equality), substring
test for strings; `TypeError` otherwise. -/
def pyContains (v : PyVal) (k : String) : Except PyErr Bool :=
  match v with
  | .dict l => .ok (hasKey l k)
  | .list xs => .ok (xs.any (fun x => match x with | .str s => s = k | _ => false))
  | .str s => .ok (strContains s k)
  | v => .error (.typeErr ("argument of type \x27" ++ pyTypeName v ++ "\x27 is not iterable"))

/-- Python `item.get(key, {}).get('3h', 0) if key in item else 0` (source lines
249-250). -/
def pyRainSnow3h (item : PyVal) (key : String) : Except PyErr PyVal := do
  let present ← pyContains item key
  if present then pyGet (← pyGet item key (.dict [])) "3h" (.int 0)
  else pure (.int 0)

/-- One iteration of the bucketing loop (source lines 230-251): the date/time
split of `dt_txt` and the entry dict.  Returns the bucket key (the date
substring) paired with the entry. -/
def forecastEntry (item : PyVal) : Except PyErr (String × FEntry) := do
  let date ← listIndex (← pySplit (← pyGet item "dt_txt" (.str "")) " ") 0
  let time ← listIndex (← pySplit (← pyGet item "dt_txt" (.str "")) " ") 1
  let temp ← pyGet (← pyGet item "main" (.dict [])) "temp" (.int 0)
  let feels_like ← pyGet (← pyGet item "main" (.dict [])) "feels_like" (.int 0)
  let min_temp ← pyGet (← pyGet item "main" (.dict [])) "temp_min" (.int 0)
  let max_temp ← pyGet (← pyGet item "main" (.dict [])) "temp_max" (.int 0)
  let humidity ← pyGet (← pyGet item "main" (.dict [])) "humidity" (.int 0)
  let weather_main ← pyGet (← pyIndex (← pyGet item "weather" (.list [.dict []])) 0) "main" (.str "Unknown")
  let weather_desc ← pyCapitalize
    (← pyGet (← pyIndex (← pyGet item "weather" (.list [.dict []])) 0) "description" (.str "Unknown"))
  let wind_speed ← pyGet (← pyGet item "wind" (.dict [])) "speed" (.int 0)
  let wind_deg ← pyGet (← pyGet item "wind" (.dict [])) "deg" (.int 0)
  let cloudiness ← pyGet (← pyGet item "clouds" (.dict [])) "all" (.int 0)
  let rain ← pyRainSnow3h item "rain"
  let snow ← pyRainSnow3h item "snow"
  pure (date,
    { time := time, temp := temp, feels_like := feels_like, min_temp := min_temp,
      max_temp := max_temp, humidity := humidity, weather_main := weather_main,
      weather_desc := weather_desc, wind_speed := wind_speed, wind_deg := wind_deg,
      cloudiness := cloudiness, rain := rain, snow := snow })

/-- Python `daily_forecasts[date].append(entry)`, creating the bucket at the end on
first occurrence of `date` (Python dicts are insertion-ordered; lines
234-237). -/
def updateBuckets (bs : List (String × List FEntry)) (d : String) (e : FEntry) :
    List (String × List FEntry) :=
  match bs with
  | [] => [(d, [e])]
  | (k, v) :: rest => if k = d then (k, v ++ [e]) :: rest else (k, v) :: updateBuckets rest d e

/-- The bucketing loop over `forecast_list` (source lines 230-251), with the
dict `daily_forecasts` as the accumulator. -/
def daily_forecasts : List PyVal → List (String × List FEntry) →
    Except PyErr (List (String × List FEntry))
  | [], bs => .ok bs
  | item :: rest, bs => do
      let p ← forecastEntry item
      daily_forecasts rest (updateBuckets bs p.1 p.2)

/-- Python `l[:days]` (Python slice with an int stop, including the negative-stop
convention). -/
def pySlice (l : List α) (days : Int) : List α :=
  if 0 ≤ days then l.take days.toNat
  else l.take (l.length - min l.length days.natAbs)

/-- First-seen-order deduplication of a key sequence: the key order a Python
dict built by repeated insertion exhibits. -/
def firstSeen : List String → List String
  | [] => []
  | d :: ds => d :: (firstSeen ds).filter (fun x => x ≠ d)

/-- Python `max(set(weather_conditions), key=weather_conditions.count)` (source line
271): the most common condition.  CPython iterates the set in hash order,
which is implementation-defined; the model fixes first-seen order, so a tie
keeps the earliest first-seen condition.  No claim constrains tie-breaks. -/
def mostCommon (conds : List String) : Except PyErr String :=
  match firstSeen conds with
  | [] => .error (.valueErr "max() arg is an empty sequence")
  | u :: us => .ok (us.foldl (fun best c => if conds.count best < conds.count c then c else best) u)

/-- Python `daily_forecasts[date]` (source line 260). -/
def dailyLookup (bs : List (String × List FEntry)) (d : String) :
    Except PyErr (List FEntry) :=
  match assocFind d bs with
  | some es => .ok es
  | none => .error (.keyErr ("\x27" ++ d ++ "\x27"))

/-- Python `"-"*50`, the day separator (source line 310). -/
def sepLine : String :=
  String.mk (List.replicate 50 (Char.ofNat 45))

/-- The per-day paragraph of the forecast report (source lines 262-308):
daily statistics, the formatted date, the hourly timeline and the day
summary. -/
def dailyParagraph (date : String) (forecasts : List FEntry) (temp_unit speed_unit : String) :
    Except PyErr String := do
  let max_temp ← pyMax (forecasts.map FEntry.temp)
  let min_temp ← pyMin (forecasts.map FEntry.temp)
  let avg_humidity ← pyDiv (← pySum (forecasts.map FEntry.humidity)) (.int forecasts.length)
  let total_rain ← pySum (forecasts.map FEntry.rain)
  let total_snow ← pySum (forecasts.map FEntry.snow)
  let weather_conditions ← forecasts.mapM (fun f => pyLower f.weather_main)
  let main_condition ← mostCommon weather_conditions
  let dayPart ← listIndex (date.splitOn "-") 2
  let monthPart ← listIndex (date.splitOn "-") 1
  let formatted_date := dayPart ++ "/" ++ monthPart
  let s := "📅 " ++ formatted_date ++ ":\n"
  let s := s ++ "Expect " ++ main_condition ++ " conditions throughout the day. "
  let s := s ++ "Temperatures will range from " ++ pyStr min_temp ++ temp_unit ++
    " to " ++ pyStr max_temp ++ temp_unit ++ ", "
  let s := s ++ "with humidity around " ++ (← pyFormatFixed avg_humidity 0) ++ "%. "
  let rainy ← pyGtInt total_rain 0
  let s ← if rainy then do
      pure (s ++ "🌧️ Expected rainfall: " ++ (← pyFormatFixed total_rain 1) ++ "mm. ")
    else pure s
  let snowy ← pyGtInt total_snow 0
  let s ← if snowy then do
      pure (s ++ "❄️ Expected snowfall: " ++ (← pyFormatFixed total_snow 1) ++ "mm. ")
    else pure s
  let s := s ++ "\n\nHourly Timeline:\n"
  let timeline ← forecasts.mapM (fun f => do
      let hh ← listIndex (f.time.splitOn ":") 0
      pure ("  • " ++ hh ++ ":00 - " ++ pyStr f.temp ++ temp_unit ++ ", " ++
        f.weather_desc.toLower ++ ", wind " ++ pyStr f.wind_speed ++ " " ++ speed_unit ++ "\n"))
  let s := s ++ String.join timeline
  let s := s ++ "\n💡 Day Summary: "
  if strContains main_condition "rain" ∨ strContains main_condition "drizzle" then
    pure (s ++ "Pack an umbrella and waterproof clothing.")
  else if strContains main_condition "snow" then
    pure (s ++ "Prepare for snowy conditions and dress warmly.")
  else if strContains main_condition "clear" then do
    let hot ← pyGtInt max_temp 20
    if hot then pure (s ++ "Perfect weather for outdoor activities!")
    else do
      let cold ← pyLtInt min_temp 10
      if cold then pure (s ++ "Clear but chilly - layer your clothing.")
      else pure (s ++ "Typical " ++ main_condition ++ " conditions expected.")
  else pure (s ++ "Typical " ++ main_condition ++ " conditions expected.")

/-- The `for date in forecast_dates` loop (source lines 259-310), appending a
paragraph and the separator per selected date. -/
def forecastDaysLoop (bs : List (String × List FEntry)) (dates : List String)
    (temp_unit speed_unit : String) (acc : String) : Except PyErr String :=
  match dates with
  | [] => .ok acc
  | d :: rest => do
      let forecasts ← dailyLookup bs d
      let para ← dailyParagraph d forecasts temp_unit speed_unit
      forecastDaysLoop bs rest temp_unit speed_unit (acc ++ para ++ "\n\n" ++ sepLine ++ "\n\n")

/-- The `try` block of `_format_forecast` (source lines 222-312). -/
def forecastTryBody (data : List (String × PyVal)) (days : Int)
    (temp_unit speed_unit : String) : Except PyErr String := do
  let city_data := dGet data "city" (.dict [])
  let forecast_list := dGet data "list" (.list [])
  let city_name ← pyGet city_data "name" (.str "Unknown")
  let country ← pyGet city_data "country" (.str "Unknown")
  let items ← pyIter forecast_list
  let buckets ← daily_forecasts items []
  let forecast_dates := pySlice (buckets.map Prod.fst) days
  let header := "🗓️ " ++ toString days ++ "-Day Weather Forecast for " ++
    pyStr city_name ++ ", " ++ pyStr country ++ "\n\n"
  forecastDaysLoop buckets forecast_dates temp_unit speed_unit header

/-- Python `_format_forecast(data, days, units)` (source lines 218-316), with the
same `except (KeyError, IndexError)` recovery as the current-weather
formatter. -/
def _format_forecast (data : List (String × PyVal)) (days : Int) (units : String) :
    Except PyErr String :=
  match forecastTryBody data days (tempUnit units) (speedUnit units) with
  | .ok s => .ok s
  | .error e =>
      match caughtByFormatter e with
      | some m => .ok ("Error formatting forecast data: " ++ m)
      | none => .error e

/-- Discriminator for the dict constructor (for stating which document values
support `.get`). -/
def isDict : PyVal → Bool
  | .dict _ => true
  | _ => false

/-- The sequence of (date, entry) pairs the bucketing loop feeds into
`daily_forecasts`, in input order (pure view of the loop body results). -/
def entriesOf : List PyVal → Except PyErr (List (String × FEntry))
  | [] => .ok []
  | it :: rest => do
      let p ← forecastEntry it
      let ps ← entriesOf rest
      pure (p :: ps)

/-- Pure form of the bucketing fold over already-computed (date, entry)
pairs. -/
def groupPairs (ps : List (String × FEntry)) : List (String × List FEntry) :=
  ps.foldl (fun bs p => updateBuckets bs p.1 p.2) []

/-- Minimal forecast sample: a dict carrying only `dt_txt` (test fixture). -/
def mkMinItem (dt : String) : PyVal :=
  .dict [("dt_txt", .str dt)]

/-- The bucket entry produced from a minimal sample: every field defaulted,
only the time-of-day substring kept (test fixture). -/
def mkMinEntry (t : String) : FEntry :=
  { time := t, temp := .int 0, feels_like := .int 0, min_temp := .int 0, max_temp := .int 0,
    humidity := .int 0, weather_main := .str "Unknown", weather_desc := "Unknown",
    wind_speed := .int 0, wind_deg := .int 0, cloudiness := .int 0, rain := .int 0,
    snow := .int 0 }

/-! ### Helper lemmas -/

theorem bind_ok_inv {α β : Type} {x : Except PyErr α} {f : α → Except PyErr β} {b : β}
    (h : (x >>= f) = .ok b) : ∃ a, x = .ok a ∧ f a = .ok b := by
  cases x with
  | error e => simp [Bind.bind, Except.bind] at h
  | ok a => exact ⟨a, rfl, by simpa [Bind.bind, Except.bind] using h⟩

theorem ratFloor_eq_intFloor (q : Rat) : Rat.floor q = ⌊q⌋ :=
  rfl

theorem roundHalfEven_add_sixteen (q : Rat) :
    roundHalfEven (q + 16) = roundHalfEven q + 16 := by
  unfold roundHalfEven
  rw [ratFloor_eq_intFloor, ratFloor_eq_intFloor]
  have hf : ⌊q + (16 : Rat)⌋ = ⌊q⌋ + 16 := by
    have := Int.floor_add_int q (16 : Int)
    push_cast at this
    exact this
  rw [hf]
  have hfr : (q + (16 : Rat)) - (((⌊q⌋ + 16 : Int) : Rat)) = q - ((⌊q⌋ : Int) : Rat) := by
    push_cast
    ring
  rw [hfr]
  split_ifs <;> omega

theorem getWindDirection_period (d : Rat) :
    getWindDirection (d + 360) = getWindDirection d := by
  unfold getWindDirection
  have hlen : ((windDirections.length : Rat)) = 16 := by norm_num [windDirections]
  have hlen2 : ((windDirections.length : Int)) = 16 := by norm_num [windDirections]
  rw [hlen, hlen2]
  have hdiv : (d + 360) / ((360 : Rat) / 16) = d / ((360 : Rat) / 16) + 16 := by
    norm_num
    ring
  rw [hdiv, roundHalfEven_add_sixteen]
  have hmod : (roundHalfEven (d / ((360 : Rat) / 16)) + 16) % 16
      = roundHalfEven (d / ((360 : Rat) / 16)) % 16 := by omega
  rw [hmod]

/-! ### Claim C2 — compass resolver -/

/-- C2 counterexample: the claim pins `direction(11.25) = "NNE"` (index 1),
but `11.25 / 22.5 = 0.5` exactly and Python 3's `round` rounds half to even,
giving index 0: the code returns `"N"` at 11.25 degrees. -/
theorem claim_C2_counterexample :
    getWindDirection 11.25 = "N" ∧ getWindDirection 11.25 ≠ "NNE" := by
  constructor
  · with_unfolding_all decide
  · with_unfolding_all decide

/-- C2 (amended): the compass resolver returns the label at index
`round(degrees / 22.5) mod 16` in the 16-label table, where `round` is
Python's round-half-to-even; all pinned values hold except the tie
`direction(11.25)`, which rounds to the even index 0 and yields `"N"` (not
`"NNE"`); the resolver is periodic with period 360 (mod wraps). -/
theorem claim_C2_amended :
    getWindDirection 0 = "N" ∧ getWindDirection 360 = "N" ∧
    getWindDirection 180 = "S" ∧ getWindDirection 22.5 = "NNE" ∧
    getWindDirection 11.24 = "N" ∧ getWindDirection 11.26 = "NNE" ∧
    getWindDirection 11.25 = "N" ∧
    ∀ d : Rat, getWindDirection (d + 360) = getWindDirection d :=
  ⟨by with_unfolding_all decide, by with_unfolding_all decide,
   by with_unfolding_all decide, by with_unfolding_all decide,
   by with_unfolding_all decide, by with_unfolding_all decide,
   by with_unfolding_all decide, getWindDirection_period⟩

/-! ### Claim C3 — structural type mismatches -/

/-- C3 counterexample: with `main` present but holding the scalar `5` instead
of a mapping, `data.get('main', {}).get('temp', 0)` raises `AttributeError`,
which the `except (KeyError, IndexError)` clause does not catch: the call
crashes instead of returning a typed error value. -/
theorem claim_C3_counterexample :
    _format_current_weather [("main", PyVal.int 5)] "metric"
      = Except.error (PyErr.attrErr "\x27int\x27 object has no attribute \x27get\x27") := by
  with_unfolding_all rfl

/-- C3 (amended): only `KeyError` and `IndexError` are converted into the
formatter's error report.  A field present with an incompatible shape where a
mapping is expected (e.g. `main` holding any non-dict value) raises
`AttributeError` from the `.get` call, and that exception propagates to the
caller as a generic crash. -/
theorem claim_C3_amended (v : PyVal) (h : isDict v = false) :
    _format_current_weather [("main", v)] "metric"
      = Except.error (PyErr.attrErr (noAttrMsg v "get")) := by
  cases v with
  | int n => with_unfolding_all rfl
  | float q => with_unfolding_all rfl
  | str s => with_unfolding_all rfl
  | list xs => with_unfolding_all rfl
  | dict l => simp [isDict] at h

/-- C3 witness: the amended theorem applied at the scalar `5`. -/
theorem claim_C3_witness :
    _format_current_weather [("main", PyVal.int 5)] "metric"
      = Except.error (PyErr.attrErr (noAttrMsg (PyVal.int 5) "get")) :=
  claim_C3_amended (PyVal.int 5) rfl

/-! ### Claim C4 — empty weather sequence -/

/-- C4 counterexample: with `weather` present and empty,
`data.get('weather', [{}])[0]` raises `IndexError` (the `[{}]` default is
used only when the key is absent), so the normalizer does NOT succeed with
`Unknown` fields: the caught exception turns into the error report. -/
theorem claim_C4_counterexample :
    _format_current_weather [("weather", PyVal.list [])] "metric"
      = Except.ok "Error formatting weather data: list index out of range" := by
  with_unfolding_all rfl

/-- C4 (amended): a document whose `weather` key holds an empty sequence
makes the normalizer raise `IndexError` on the `[0]` subscript; the
`except (KeyError, IndexError)` clause catches it and the call returns the
formatting-error report (for every unit system), never a defaulted success
with `Unknown` classification fields. -/
theorem claim_C4_amended (units : String) :
    _format_current_weather [("weather", PyVal.list [])] units
      = Except.ok "Error formatting weather data: list index out of range" := by
  with_unfolding_all rfl

/-! ### Claim C9 — sunrise/sunset -/

/-- C9 counterexample: sunrise/sunset timestamps are never passed through:
a document carrying `sys.sunrise = 1700000001` and `sys.sunset = 1700000002`
produces a report in which neither epoch value occurs at all. -/
theorem claim_C9_counterexample :
    _format_current_weather
        [("sys", PyVal.dict [("country", PyVal.str "GB"),
          ("sunrise", PyVal.int 1700000001), ("sunset", PyVal.int 1700000002)])] "metric"
      = Except.ok "🌍 Weather Report for Unknown, GB\n\nRight now, it\x27s 0°C with unknown. The temperature feels like 0°C due to the current conditions. The air is calm with minimal wind. \n\nThe atmosphere shows 0% humidity. Visibility extends to 0.0 kilometers, and the barometric pressure reads 0 hPa.\n\n📝 Summary: Typical unknown conditions for this area."
    ∧ strContains "🌍 Weather Report for Unknown, GB\n\nRight now, it\x27s 0°C with unknown. The temperature feels like 0°C due to the current conditions. The air is calm with minimal wind. \n\nThe atmosphere shows 0% humidity. Visibility extends to 0.0 kilometers, and the barometric pressure reads 0 hPa.\n\n📝 Summary: Typical unknown conditions for this area." "1700000001" = false
    ∧ strContains "🌍 Weather Report for Unknown, GB\n\nRight now, it\x27s 0°C with unknown. The temperature feels like 0°C due to the current conditions. The air is calm with minimal wind. \n\nThe atmosphere shows 0% humidity. Visibility extends to 0.0 kilometers, and the barometric pressure reads 0 hPa.\n\n📝 Summary: Typical unknown conditions for this area." "1700000002" = false := by
  refine ⟨?_, ?_, ?_⟩
  · with_unfolding_all rfl
  · with_unfolding_all rfl
  · with_unfolding_all rfl

/-- C9 (amended): the normalizer never reads `sys.sunrise`/`sys.sunset` —
the report is identical whatever values those keys hold, and identical to the
report of the same document without them; in particular no sunrise/sunset
timestamps (converted or not) appear in the output. -/
theorem claim_C9_amended (a b : PyVal) :
    _format_current_weather
        [("sys", PyVal.dict [("country", PyVal.str "GB"),
          ("sunrise", a), ("sunset", b)])] "metric"
      = _format_current_weather [("sys", PyVal.dict [("country", PyVal.str "GB")])] "metric" := by
  with_unfolding_all rfl

/-! ### Claim C1 — absent fields -/

/-- C1 counterexample: a forecast sample lacking `dt_txt` does NOT get a
default-and-succeed treatment: `item.get("dt_txt", "")` defaults to `""`,
`"".split(" ")` is `[""]`, and the `[1]` time extraction raises `IndexError`,
so the aggregator returns the formatting-error report instead of a
successful one. -/
theorem claim_C1_counterexample :
    _format_forecast [("list", PyVal.list [PyVal.dict []])] 3 "metric"
      = Except.ok "Error formatting forecast data: list index out of range" := by
  with_unfolding_all rfl

/-- C1 (amended): the current-conditions normalizer never fails on field
absence — the empty document yields the fully-defaulted report under both
unit systems — and the forecast aggregator defaults every absent field
except `dt_txt`: a sample carrying only a well-formed `dt_txt` aggregates
into a fully-defaulted bucket entry, but a sample lacking `dt_txt` makes the
aggregator return the formatting-error report (for every day count and unit
system). -/
theorem claim_C1_amended :
    _format_current_weather [] "metric"
      = Except.ok "🌍 Weather Report for Unknown, Unknown\n\nRight now, it\x27s 0°C with unknown. The temperature feels like 0°C due to the current conditions. The air is calm with minimal wind. \n\nThe atmosphere shows 0% humidity. Visibility extends to 0.0 kilometers, and the barometric pressure reads 0 hPa.\n\n📝 Summary: Typical unknown conditions for this area."
    ∧ _format_current_weather [] "imperial"
      = Except.ok "🌍 Weather Report for Unknown, Unknown\n\nRight now, it\x27s 0°F with unknown. The temperature feels like 0°F due to the current conditions. The air is calm with minimal wind. \n\nThe atmosphere shows 0% humidity. Visibility extends to 0.0 kilometers, and the barometric pressure reads 0 hPa.\n\n📝 Summary: Typical unknown conditions for this area."
    ∧ _format_forecast [("list", PyVal.list [PyVal.dict [("dt_txt", PyVal.str "2024-01-01 03:00:00")]])] 3 "metric"
      = Except.ok "🗓️ 3-Day Weather Forecast for Unknown, Unknown\n\n📅 01/01:\nExpect unknown conditions throughout the day. Temperatures will range from 0°C to 0°C, with humidity around 0%. \n\nHourly Timeline:\n  • 03:00 - 0°C, unknown, wind 0 m/s\n\n💡 Day Summary: Typical unknown conditions expected.\n\n--------------------------------------------------\n\n"
    ∧ ∀ (days : Int) (units : String),
        _format_forecast [("list", PyVal.list [PyVal.dict []])] days units
          = Except.ok "Error formatting forecast data: list index out of range" := by
  refine ⟨?_, ?_, ?_, fun days units => ?_⟩
  · with_unfolding_all rfl
  · with_unfolding_all rfl
  · with_unfolding_all rfl
  · with_unfolding_all rfl

/-! ### Claim C7 — unit selection and quantity rendering -/

/-- C7 counterexample: the humidity percentage is rendered with NO space
before `%` (`f"{humidity}% humidity"`), contradicting the claimed single
space before `%`: with `main.humidity = 64` the report contains `"64%"` and
not `"64 %"`. -/
theorem claim_C7_counterexample :
    _format_current_weather
        [("name", PyVal.str "London"), ("sys", PyVal.dict [("country", PyVal.str "GB")]),
         ("main", PyVal.dict [("temp", PyVal.float 20.5), ("feels_like", PyVal.float 19.0),
           ("humidity", PyVal.int 64), ("pressure", PyVal.int 1013)]),
         ("wind", PyVal.dict [("speed", PyVal.float 3.4), ("deg", PyVal.int 250)]),
         ("weather", PyVal.list [PyVal.dict [("main", PyVal.str "Clouds"),
           ("description", PyVal.str "scattered clouds")]]),
         ("visibility", PyVal.int 10000), ("clouds", PyVal.dict [("all", PyVal.int 40)])] "metric"
      = Except.ok "🌍 Weather Report for London, GB\n\nRight now, it\x27s 20.5°C with scattered clouds. The temperature feels like 19.0°C due to the current conditions. Winds are blowing from the WSW at 3.4 m/s. \n\nThe atmosphere shows 64% humidity with 40% cloud cover. Visibility extends to 10.0 kilometers, and the barometric pressure reads 1013 hPa.\n\n📝 Summary: Typical clouds conditions for this area."
    ∧ strContains "🌍 Weather Report for London, GB\n\nRight now, it\x27s 20.5°C with scattered clouds. The temperature feels like 19.0°C due to the current conditions. Winds are blowing from the WSW at 3.4 m/s. \n\nThe atmosphere shows 64% humidity with 40% cloud cover. Visibility extends to 10.0 kilometers, and the barometric pressure reads 1013 hPa.\n\n📝 Summary: Typical clouds conditions for this area." "64% humidity" = true
    ∧ strContains "🌍 Weather Report for London, GB\n\nRight now, it\x27s 20.5°C with scattered clouds. The temperature feels like 19.0°C due to the current conditions. Winds are blowing from the WSW at 3.4 m/s. \n\nThe atmosphere shows 64% humidity with 40% cloud cover. Visibility extends to 10.0 kilometers, and the barometric pressure reads 1013 hPa.\n\n📝 Summary: Typical clouds conditions for this area." "64 %" = false := by
  refine ⟨?_, ?_, ?_⟩
  · with_unfolding_all rfl
  · with_unfolding_all rfl
  · with_unfolding_all rfl

/-- C7 (amended): metric selects `°C`/`m/s` and imperial `°F`/`mph`;
temperatures attach the unit with no space (`20.5°C`, `20.5°F`), wind speed
takes a single space (`3.4 m/s`, `3.4 mph`), pressure takes a single space
(`1013 hPa`), but percentages attach `%` with NO space (`64% humidity`,
`40% cloud cover`), and visibility is rendered `"<v:.1f> kilometers"` (spelt
out, not `km`). -/
theorem claim_C7_amended :
    tempUnit "metric" = "°C" ∧ speedUnit "metric" = "m/s" ∧
    tempUnit "imperial" = "°F" ∧ speedUnit "imperial" = "mph" ∧
    _format_current_weather
        [("name", PyVal.str "London"), ("sys", PyVal.dict [("country", PyVal.str "GB")]),
         ("main", PyVal.dict [("temp", PyVal.float 20.5), ("feels_like", PyVal.float 19.0),
           ("humidity", PyVal.int 64), ("pressure", PyVal.int 1013)]),
         ("wind", PyVal.dict [("speed", PyVal.float 3.4), ("deg", PyVal.int 250)]),
         ("weather", PyVal.list [PyVal.dict [("main", PyVal.str "Clouds"),
           ("description", PyVal.str "scattered clouds")]]),
         ("visibility", PyVal.int 10000), ("clouds", PyVal.dict [("all", PyVal.int 40)])] "metric"
      = Except.ok "🌍 Weather Report for London, GB\n\nRight now, it\x27s 20.5°C with scattered clouds. The temperature feels like 19.0°C due to the current conditions. Winds are blowing from the WSW at 3.4 m/s. \n\nThe atmosphere shows 64% humidity with 40% cloud cover. Visibility extends to 10.0 kilometers, and the barometric pressure reads 1013 hPa.\n\n📝 Summary: Typical clouds conditions for this area."
    ∧ strContains "Right now, it\x27s 20.5°C with scattered clouds. The temperature feels like 19.0°C due to the current conditions. Winds are blowing from the WSW at 3.4 m/s. \n\nThe atmosphere shows 64% humidity with 40% cloud cover. Visibility extends to 10.0 kilometers, and the barometric pressure reads 1013 hPa." "20.5°C" = true
    ∧ strContains "Right now, it\x27s 20.5°C with scattered clouds. The temperature feels like 19.0°C due to the current conditions. Winds are blowing from the WSW at 3.4 m/s. \n\nThe atmosphere shows 64% humidity with 40% cloud cover. Visibility extends to 10.0 kilometers, and the barometric pressure reads 1013 hPa." "3.4 m/s" = true
    ∧ strContains "Right now, it\x27s 20.5°C with scattered clouds. The temperature feels like 19.0°C due to the current conditions. Winds are blowing from the WSW at 3.4 m/s. \n\nThe atmosphere shows 64% humidity with 40% cloud cover. Visibility extends to 10.0 kilometers, and the barometric pressure reads 1013 hPa." "1013 hPa" = true
    ∧ strContains "Right now, it\x27s 20.5°C with scattered clouds. The temperature feels like 19.0°C due to the current conditions. Winds are blowing from the WSW at 3.4 m/s. \n\nThe atmosphere shows 64% humidity with 40% cloud cover. Visibility extends to 10.0 kilometers, and the barometric pressure reads 1013 hPa." "10.0 kilometers" = true
    ∧ _format_current_weather
        [("name", PyVal.str "London"), ("sys", PyVal.dict [("country", PyVal.str "GB")]),
         ("main", PyVal.dict [("temp", PyVal.float 20.5), ("feels_like", PyVal.float 19.0),
           ("humidity", PyVal.int 64), ("pressure", PyVal.int 1013)]),
         ("wind", PyVal.dict [("speed", PyVal.float 3.4), ("deg", PyVal.int 250)]),
         ("weather", PyVal.list [PyVal.dict [("main", PyVal.str "Clouds"),
           ("description", PyVal.str "scattered clouds")]]),
         ("visibility", PyVal.int 10000), ("clouds", PyVal.dict [("all", PyVal.int 40)])] "imperial"
      = Except.ok "🌍 Weather Report for London, GB\n\nRight now, it\x27s 20.5°F with scattered clouds. The temperature feels like 19.0°F due to the current conditions. Winds are blowing from the WSW at 3.4 mph. \n\nThe atmosphere shows 64% humidity with 40% cloud cover. Visibility extends to 10.0 kilometers, and the barometric pressure reads 1013 hPa.\n\n📝 Summary: Typical clouds conditions for this area."
    ∧ strContains "Right now, it\x27s 20.5°F with scattered clouds. The temperature feels like 19.0°F due to the current conditions. Winds are blowing from the WSW at 3.4 mph. " "20.5°F" = true
    ∧ strContains "Right now, it\x27s 20.5°F with scattered clouds. The temperature feels like 19.0°F due to the current conditions. Winds are blowing from the WSW at 3.4 mph. " "3.4 mph" = true := by
  refine ⟨?_, ?_, ?_, ?_, ?_, ?_, ?_, ?_, ?_, ?_, ?_, ?_⟩ <;> with_unfolding_all rfl

/-! ### Claim C8 — rain/snow blocks -/

/-- C8 counterexample: a document where `rain` IS present (holding an empty
mapping, so `rain.1h` defaults to `0`) produces a report with no rain block
at all — identical to the report of the document without the key — because
the code adds the block only when `rain_1h > 0`, not whenever the key is
present. -/
theorem claim_C8_counterexample :
    _format_current_weather [("rain", PyVal.dict [])] "metric"
      = _format_current_weather [] "metric"
    ∧ _format_current_weather [("rain", PyVal.dict [])] "metric"
      = Except.ok "🌍 Weather Report for Unknown, Unknown\n\nRight now, it\x27s 0°C with unknown. The temperature feels like 0°C due to the current conditions. The air is calm with minimal wind. \n\nThe atmosphere shows 0% humidity. Visibility extends to 0.0 kilometers, and the barometric pressure reads 0 hPa.\n\n📝 Summary: Typical unknown conditions for this area."
    ∧ strContains "🌍 Weather Report for Unknown, Unknown\n\nRight now, it\x27s 0°C with unknown. The temperature feels like 0°C due to the current conditions. The air is calm with minimal wind. \n\nThe atmosphere shows 0% humidity. Visibility extends to 0.0 kilometers, and the barometric pressure reads 0 hPa.\n\n📝 Summary: Typical unknown conditions for this area." "mm of rain" = false := by
  refine ⟨?_, ?_, ?_⟩
  · with_unfolding_all rfl
  · with_unfolding_all rfl
  · with_unfolding_all rfl

/-- C8 (amended): the rain block appears iff the `rain` key is present AND
its `1h` amount (default 0) is strictly positive, and then reads
`"<1h>mm of rain has fallen in the last hour"` (`mm` attached, no space);
when the key is present with a non-positive amount, or absent, no rain block
is produced (same policy for `snow`); absent keys still omit the block
entirely. -/
theorem claim_C8_amended :
    (∀ (data : List (String × PyVal)) (dl : List (String × PyVal)) (v : PyVal),
      hasKey data "snow" = false → assocFind "rain" data = some (PyVal.dict dl) →
      dGet dl "1h" (PyVal.int 0) = v → pyGtInt v 0 = .ok true →
      currentPrecipitation data = .ok ["🌧️ " ++ pyStr v ++ "mm of rain has fallen in the last hour"])
    ∧ (∀ (data : List (String × PyVal)) (dl : List (String × PyVal)) (v : PyVal),
      hasKey data "snow" = false → assocFind "rain" data = some (PyVal.dict dl) →
      dGet dl "1h" (PyVal.int 0) = v → pyGtInt v 0 = .ok false →
      currentPrecipitation data = .ok [])
    ∧ (∀ data : List (String × PyVal),
      hasKey data "rain" = false → hasKey data "snow" = false →
      currentPrecipitation data = .ok [])
    ∧ _format_current_weather
        [("rain", PyVal.dict [("1h", PyVal.float 2.5)]), ("snow", PyVal.dict [("1h", PyVal.int 1)])] "metric"
      = Except.ok "🌍 Weather Report for Unknown, Unknown\n\nRight now, it\x27s 0°C with unknown. The temperature feels like 0°C due to the current conditions. The air is calm with minimal wind. \n\nThe atmosphere shows 0% humidity. Visibility extends to 0.0 kilometers, and the barometric pressure reads 0 hPa.\n\n🌧️ 2.5mm of rain has fallen in the last hour. ❄️ 1mm of snow has accumulated in the last hour.\n\n📝 Summary: Typical unknown conditions for this area." := by
  refine ⟨?_, ?_, ?_, ?_⟩
  · intro data dl v hsnow hrain hv hpos
    have hr : hasKey data "rain" = true := by simp [hasKey, hrain]
    simp [currentPrecipitation, hr, hsnow, dictSubscript, hrain, pyGet, hv, hpos,
      Bind.bind, Except.bind, Pure.pure, Except.pure]
  · intro data dl v hsnow hrain hv hpos
    have hr : hasKey data "rain" = true := by simp [hasKey, hrain]
    simp [currentPrecipitation, hr, hsnow, dictSubscript, hrain, pyGet, hv, hpos,
      Bind.bind, Except.bind, Pure.pure, Except.pure]
  · intro data hrain hsnow
    simp [currentPrecipitation, hrain, hsnow, Bind.bind, Except.bind,
      Pure.pure, Except.pure]
  · with_unfolding_all rfl

/-- C8 witness: the presence branch of the amended theorem applied to a
document whose `rain.1h` is the positive float `2.5`. -/
theorem claim_C8_witness :
    currentPrecipitation [("rain", PyVal.dict [("1h", PyVal.float 2.5)])]
      = .ok ["🌧️ " ++ pyStr (PyVal.float 2.5) ++ "mm of rain has fallen in the last hour"] :=
  claim_C8_amended.1 [("rain", PyVal.dict [("1h", PyVal.float 2.5)])]
    [("1h", PyVal.float 2.5)] (PyVal.float 2.5) rfl rfl rfl (by with_unfolding_all rfl)

/-! ### Bucketing lemmas -/

theorem daily_forecasts_eq (items : List PyVal) (bs : List (String × List FEntry)) :
    daily_forecasts items bs
      = (entriesOf items).map (fun ps => ps.foldl (fun b p => updateBuckets b p.1 p.2) bs) := by
  induction items generalizing bs with
  | nil => rfl
  | cons it rest ih =>
    simp only [daily_forecasts, entriesOf]
    cases h : forecastEntry it with
    | error e => simp [h, Bind.bind, Except.bind, Except.map]
    | ok p =>
      simp only [h, Bind.bind, Except.bind]
      rw [ih]
      cases h2 : entriesOf rest with
      | error e => simp [h2, Except.map, Except.bind]
      | ok ps => simp [h2, Except.map, Except.bind, Pure.pure, Except.pure]

theorem updateBuckets_keys (bs : List (String × List FEntry)) (d : String) (e : FEntry) :
    (updateBuckets bs d e).map Prod.fst
      = if d ∈ bs.map Prod.fst then bs.map Prod.fst else bs.map Prod.fst ++ [d] := by
  induction bs with
  | nil => simp [updateBuckets]
  | cons kv rest ih =>
    obtain ⟨k, v⟩ := kv
    by_cases hk : k = d
    · subst hk
      simp [updateBuckets]
    · by_cases hd : d ∈ rest.map Prod.fst
      · simp [updateBuckets, hk, ih, hd, Ne.symm hk]
      · simp [updateBuckets, hk, ih, hd, Ne.symm hk]

theorem updateBuckets_find (bs : List (String × List FEntry)) (d : String) (e : FEntry)
    (k : String) :
    assocFind k (updateBuckets bs d e)
      = if k = d then
          (match assocFind d bs with
           | some v => some (v ++ [e])
           | none => some [e])
        else assocFind k bs := by
  induction bs with
  | nil =>
    by_cases hk : k = d
    · subst hk
      simp [updateBuckets, assocFind]
    · simp [updateBuckets, assocFind, hk, Ne.symm hk]
  | cons kv rest ih =>
    obtain ⟨k2, v⟩ := kv
    by_cases h2 : k2 = d
    · subst h2
      by_cases hk : k = k2
      · subst hk
        simp [updateBuckets, assocFind]
      · simp [updateBuckets, assocFind, hk, Ne.symm hk]
    · by_cases hk : k = k2
      · subst hk
        have hkd : ¬ k = d := fun h => h2 (h ▸ rfl)
        simp [updateBuckets, assocFind, Ne.symm h2, hkd]
      · by_cases hkd : k = d
        · subst hkd
          simp [updateBuckets, assocFind, h2, Ne.symm hk, hk, ih]
        · simp [updateBuckets, assocFind, h2, Ne.symm hk, hk, hkd, ih]

theorem mem_firstSeen (x : String) (l : List String) : x ∈ firstSeen l ↔ x ∈ l := by
  induction l with
  | nil => simp [firstSeen]
  | cons d ds ih =>
    simp only [firstSeen, List.mem_cons, List.mem_filter, ih]
    constructor
    · rintro (rfl | ⟨hx, _⟩)
      · exact Or.inl rfl
      · exact Or.inr hx
    · rintro (rfl | hx)
      · exact Or.inl rfl
      · by_cases hxd : x = d
        · exact Or.inl hxd
        · exact Or.inr ⟨hx, by simpa using hxd⟩

theorem firstSeen_snoc (l : List String) (d : String) :
    firstSeen (l ++ [d]) = if d ∈ l then firstSeen l else firstSeen l ++ [d] := by
  induction l with
  | nil => simp [firstSeen]
  | cons x l ih =>
    simp only [List.cons_append, firstSeen, List.append_eq]
    rw [ih]
    by_cases hd : d ∈ l
    · simp [hd]
    · by_cases hdx : d = x
      · subst hdx
        simp [hd, List.filter_append]
      · simp [hd, hdx, List.filter_append, Ne.symm hdx]

theorem groupPairs_snoc (ps : List (String × FEntry)) (p : String × FEntry) :
    groupPairs (ps ++ [p]) = updateBuckets (groupPairs ps) p.1 p.2 := by
  simp [groupPairs, List.foldl_append]

theorem groupPairs_keys (ps : List (String × FEntry)) :
    (groupPairs ps).map Prod.fst = firstSeen (ps.map Prod.fst) := by
  induction ps using List.reverseRecOn with
  | nil => rfl
  | append_singleton ps p ih =>
    rw [groupPairs_snoc, updateBuckets_keys, ih]
    have hm : List.map Prod.fst (ps ++ [p]) = List.map Prod.fst ps ++ [p.1] := by simp
    rw [hm, firstSeen_snoc]
    by_cases hp : p.1 ∈ List.map Prod.fst ps
    · simp [hp, mem_firstSeen]
    · simp [hp, mem_firstSeen]

theorem groupPairs_find (ps : List (String × FEntry)) (d : String) :
    assocFind d (groupPairs ps)
      = if d ∈ ps.map Prod.fst
        then some ((ps.filter (fun p => p.1 = d)).map Prod.snd)
        else none := by
  induction ps using List.reverseRecOn with
  | nil => simp [groupPairs, assocFind]
  | append_singleton ps p ih =>
    obtain ⟨p1, p2⟩ := p
    rw [groupPairs_snoc, updateBuckets_find]
    by_cases hd : d = p1
    · subst hd
      rw [if_pos rfl, ih]
      by_cases hp : d ∈ List.map Prod.fst ps
      · rw [if_pos hp]
        simp [List.filter_append, hp]
      · rw [if_neg hp]
        have hfe : ps.filter (fun q => q.1 = d) = [] := by
          rw [List.filter_eq_nil_iff]
          intro a ha
          simp only [decide_eq_true_eq]
          intro had
          exact hp (had ▸ List.mem_map_of_mem Prod.fst ha)
        simp [List.filter_append, hfe, hp]
    · rw [if_neg hd, ih]
      by_cases hp : d ∈ List.map Prod.fst ps
      · rw [if_pos hp]
        have hmem : d ∈ List.map Prod.fst (ps ++ [(p1, p2)]) := by simp [hp]
        rw [if_pos hmem]
        simp [List.filter_append, Ne.symm hd]
      · rw [if_neg hp]
        have hmem : ¬ d ∈ List.map Prod.fst (ps ++ [(p1, p2)]) := by simp [hp, hd]
        rw [if_neg hmem]

theorem updateBuckets_nonempty (bs : List (String × List FEntry)) (d : String) (e : FEntry)
    (h : ∀ p ∈ bs, p.2 ≠ []) : ∀ p ∈ updateBuckets bs d e, p.2 ≠ [] := by
  induction bs with
  | nil =>
    intro p hp
    simp only [updateBuckets, List.mem_singleton] at hp
    simp [hp]
  | cons kv rest ih =>
    obtain ⟨k, v⟩ := kv
    intro p hp
    by_cases hk : k = d
    · simp only [updateBuckets, hk, if_pos rfl] at hp
      rcases List.mem_cons.mp hp with hpe | hp2
      · simp [hpe]
      · exact h p (List.mem_cons_of_mem _ hp2)
    · simp only [updateBuckets, hk, if_false] at hp
      rcases List.mem_cons.mp hp with hpe | hp2
      · have := h (k, v) (List.mem_cons_self _ _)
        simp [hpe, this]
      · exact ih (fun q hq => h q (List.mem_cons_of_mem _ hq)) p hp2

theorem daily_forecasts_nonempty (items : List PyVal) (bs out : List (String × List FEntry))
    (hbs : ∀ p ∈ bs, p.2 ≠ []) (h : daily_forecasts items bs = .ok out) :
    ∀ p ∈ out, p.2 ≠ [] := by
  induction items generalizing bs with
  | nil =>
    simp only [daily_forecasts] at h
    cases h
    exact hbs
  | cons it rest ih =>
    simp only [daily_forecasts] at h
    obtain ⟨p, hp, h⟩ := bind_ok_inv h
    exact ih _ (updateBuckets_nonempty bs p.1 p.2 hbs) h

theorem pyGtVal_error_typeErr (a b : PyVal) (e : PyErr) (h : pyGtVal a b = .error e) :
    ∃ m, e = .typeErr m := by
  cases a <;> cases b <;> simp [pyGtVal, toQ] at h <;> exact ⟨_, h.symm⟩

theorem foldlM_maxStep_no_valueErr (rest : List PyVal) (x : PyVal) (m : String) :
    rest.foldlM pyMaxStep x ≠ .error (.valueErr m) := by
  induction rest generalizing x with
  | nil => simp [List.foldlM, Pure.pure, Except.pure]
  | cons y ys ih =>
    intro hc
    simp only [List.foldlM] at hc
    cases hps : pyMaxStep x y with
    | error e =>
      rw [hps] at hc
      simp only [Bind.bind, Except.bind] at hc
      cases hc
      simp only [pyMaxStep, Bind.bind, Except.bind] at hps
      cases hg : pyGtVal y x with
      | error e2 =>
        rw [hg] at hps
        cases hps
        obtain ⟨m2, hm⟩ := pyGtVal_error_typeErr y x _ hg
        cases hm
      | ok b =>
        rw [hg] at hps
        simp [Pure.pure, Except.pure] at hps
    | ok s2 =>
      rw [hps] at hc
      simp only [Bind.bind, Except.bind] at hc
      exact ih s2 hc

theorem foldlM_minStep_no_valueErr (rest : List PyVal) (x : PyVal) (m : String) :
    rest.foldlM pyMinStep x ≠ .error (.valueErr m) := by
  induction rest generalizing x with
  | nil => simp [List.foldlM, Pure.pure, Except.pure]
  | cons y ys ih =>
    intro hc
    simp only [List.foldlM] at hc
    cases hps : pyMinStep x y with
    | error e =>
      rw [hps] at hc
      simp only [Bind.bind, Except.bind] at hc
      cases hc
      simp only [pyMinStep, Bind.bind, Except.bind] at hps
      cases hg : pyGtVal x y with
      | error e2 =>
        rw [hg] at hps
        cases hps
        obtain ⟨m2, hm⟩ := pyGtVal_error_typeErr x y _ hg
        cases hm
      | ok b =>
        rw [hg] at hps
        simp [Pure.pure, Except.pure] at hps
    | ok s2 =>
      rw [hps] at hc
      simp only [Bind.bind, Except.bind] at hc
      exact ih s2 hc

theorem pyMax_no_valueErr (xs : List PyVal) (hne : xs ≠ []) (m : String) :
    pyMax xs ≠ .error (.valueErr m) := by
  cases xs with
  | nil => exact absurd rfl hne
  | cons x rest => exact foldlM_maxStep_no_valueErr rest x m

theorem pyMin_no_valueErr (xs : List PyVal) (hne : xs ≠ []) (m : String) :
    pyMin xs ≠ .error (.valueErr m) := by
  cases xs with
  | nil => exact absurd rfl hne
  | cons x rest => exact foldlM_minStep_no_valueErr rest x m

theorem pyDiv_no_zeroDiv (v : PyVal) (n : Int) (hn : n ≠ 0) (m : String) :
    pyDiv v (.int n) ≠ .error (.zeroDivErr m) := by
  unfold pyDiv
  cases hq : toQ v with
  | none => simp [toQ]
  | some q =>
    simp only [toQ]
    have : ((n : Rat)) ≠ 0 := Int.cast_ne_zero.mpr hn
    simp [this]

theorem mostCommon_no_valueErr (cs : List String) (hne : cs ≠ []) (m : String) :
    mostCommon cs ≠ .error (.valueErr m) := by
  cases cs with
  | nil => exact absurd rfl hne
  | cons c rest => simp [mostCommon, firstSeen]

theorem mapM_lower_nonempty (fs : List FEntry) (hne : fs ≠ []) (cs : List String)
    (h : fs.mapM (fun f => pyLower f.weather_main) = .ok cs) : cs ≠ [] := by
  cases fs with
  | nil => exact absurd rfl hne
  | cons f rest =>
    rw [List.mapM_cons] at h
    obtain ⟨c, hc, h⟩ := bind_ok_inv h
    obtain ⟨cs2, hcs, h⟩ := bind_ok_inv h
    simp only [Pure.pure, Except.pure, Except.ok.injEq] at h
    subst h
    simp

theorem forecastEntry_split (item : PyVal) (d : String) (e : FEntry)
    (h : forecastEntry item = .ok (d, e)) :
    ∃ s, pyGet item "dt_txt" (.str "") = .ok (.str s) ∧
      (s.splitOn " ").get? 0 = some d ∧ (s.splitOn " ").get? 1 = some e.time := by
  unfold forecastEntry at h
  obtain ⟨v1, hv1, h⟩ := bind_ok_inv h
  obtain ⟨parts1, hp1, h⟩ := bind_ok_inv h
  obtain ⟨date, hdate, h⟩ := bind_ok_inv h
  obtain ⟨v2, hv2, h⟩ := bind_ok_inv h
  obtain ⟨parts2, hp2, h⟩ := bind_ok_inv h
  obtain ⟨time, htime, h⟩ := bind_ok_inv h
  repeat obtain ⟨_, _, h⟩ := bind_ok_inv h
  simp only [Pure.pure, Except.pure, Except.ok.injEq, Prod.mk.injEq] at h
  obtain ⟨hd, he⟩ := h
  cases v1 with
  | str s =>
    refine ⟨s, hv1, ?_, ?_⟩
    · simp only [pySplit, Except.ok.injEq] at hp1
      subst hp1
      simp only [listIndex] at hdate
      cases hg : (s.splitOn " ").get? 0 with
      | none => rw [hg] at hdate; cases hdate
      | some y => rw [hg] at hdate; cases hdate; simp [hg, hd]
    · rw [hv1] at hv2
      cases hv2
      simp only [pySplit, Except.ok.injEq] at hp2
      subst hp2
      simp only [listIndex] at htime
      cases hg : (s.splitOn " ").get? 1 with
      | none => rw [hg] at htime; cases htime
      | some y => rw [hg] at htime; cases htime; simp [hg, ← he]
  | int n => simp [pySplit] at hp1
  | float q => simp [pySplit] at hp1
  | list xs => simp [pySplit] at hp1
  | dict l => simp [pySplit] at hp1

/-! ### Claim C6 — bucketing invariant -/

/-- C6: each sample's `dt_txt` is split on the space character — the date
substring (index 0 of the split) is the bucket key and the time substring
(index 1) is kept per-entry — and whenever the bucketing loop succeeds, the
bucket keys are exactly the distinct dates in first-seen order and each
bucket holds exactly the entries of its date in input order. -/
theorem claim_C6_theorem (items : List PyVal) (ps : List (String × FEntry))
    (h : entriesOf items = .ok ps) :
    daily_forecasts items [] = .ok (groupPairs ps)
    ∧ (groupPairs ps).map Prod.fst = firstSeen (ps.map Prod.fst)
    ∧ (∀ d, d ∈ ps.map Prod.fst →
        assocFind d (groupPairs ps) = some ((ps.filter (fun p => p.1 = d)).map Prod.snd))
    ∧ (∀ item d e, forecastEntry item = .ok (d, e) →
        ∃ s, pyGet item "dt_txt" (.str "") = .ok (.str s) ∧
          (s.splitOn " ").get? 0 = some d ∧ (s.splitOn " ").get? 1 = some e.time) := by
  refine ⟨?_, groupPairs_keys ps, ?_, forecastEntry_split⟩
  · rw [daily_forecasts_eq items [], h]
    rfl
  · intro d hd
    rw [groupPairs_find, if_pos hd]

/-- C6 witness: three minimal samples, two on the first date and one on a
second date, bucket into the two dates in first-seen order with entries in
input order. -/
theorem claim_C6_witness :
    daily_forecasts
        [mkMinItem "2024-01-01 03:00:00", mkMinItem "2024-01-01 06:00:00",
         mkMinItem "2024-01-02 09:00:00"] []
      = .ok (groupPairs
          [("2024-01-01", mkMinEntry "03:00:00"), ("2024-01-01", mkMinEntry "06:00:00"),
           ("2024-01-02", mkMinEntry "09:00:00")])
    ∧ (groupPairs
        [("2024-01-01", mkMinEntry "03:00:00"), ("2024-01-01", mkMinEntry "06:00:00"),
         ("2024-01-02", mkMinEntry "09:00:00")]).map Prod.fst
      = firstSeen ["2024-01-01", "2024-01-01", "2024-01-02"]
    ∧ assocFind "2024-01-01"
        (groupPairs
          [("2024-01-01", mkMinEntry "03:00:00"), ("2024-01-01", mkMinEntry "06:00:00"),
           ("2024-01-02", mkMinEntry "09:00:00")])
      = some (([("2024-01-01", mkMinEntry "03:00:00"), ("2024-01-01", mkMinEntry "06:00:00"),
           ("2024-01-02", mkMinEntry "09:00:00")].filter
             (fun p => p.1 = "2024-01-01")).map Prod.snd) := by
  have h := claim_C6_theorem
    [mkMinItem "2024-01-01 03:00:00", mkMinItem "2024-01-01 06:00:00",
     mkMinItem "2024-01-02 09:00:00"]
    [("2024-01-01", mkMinEntry "03:00:00"), ("2024-01-01", mkMinEntry "06:00:00"),
     ("2024-01-02", mkMinEntry "09:00:00")]
    (by with_unfolding_all rfl)
  exact ⟨h.1, h.2.1, h.2.2.1 "2024-01-01" (by decide)⟩

/-! ### Claim C5 — truncation to the requested day count -/

/-- C5: whenever bucketing succeeds, the selected dates are exactly the
first `days` distinct dates in first-seen order (`keys[:days]`): their
number is `min days (number of distinct dates)`, and when the input spans at
most `days` distinct dates all of them are kept — no error, no padding. -/
theorem claim_C5_theorem (items : List PyVal) (ps : List (String × FEntry)) (days : Int)
    (h : entriesOf items = .ok ps) (hd : 0 ≤ days) :
    (daily_forecasts items []).map (fun bs => pySlice (bs.map Prod.fst) days)
      = .ok ((firstSeen (ps.map Prod.fst)).take days.toNat)
    ∧ ((firstSeen (ps.map Prod.fst)).take days.toNat).length
        = min days.toNat (firstSeen (ps.map Prod.fst)).length
    ∧ ((firstSeen (ps.map Prod.fst)).length ≤ days.toNat →
        (firstSeen (ps.map Prod.fst)).take days.toNat = firstSeen (ps.map Prod.fst)) := by
  refine ⟨?_, List.length_take _ _, fun hle => List.take_of_length_le hle⟩
  rw [daily_forecasts_eq items [], h]
  have hgp : List.foldl (fun b p => updateBuckets b p.1 p.2) ([] : List (String × List FEntry)) ps
      = groupPairs ps := rfl
  show Except.ok (pySlice ((List.foldl (fun b p => updateBuckets b p.1 p.2) [] ps).map Prod.fst) days) = _
  rw [hgp, groupPairs_keys]
  unfold pySlice
  rw [if_pos hd]

/-- C5 witness: three samples spanning two distinct dates with
`requestedDays = 3` select exactly the two dates — all of them, no padding. -/
theorem claim_C5_witness :
    (daily_forecasts
        [mkMinItem "2030-05-01 00:00:00", mkMinItem "2030-05-01 03:00:00",
         mkMinItem "2030-05-02 00:00:00"] []).map
          (fun bs => pySlice (bs.map Prod.fst) 3)
      = .ok ((firstSeen ["2030-05-01", "2030-05-01", "2030-05-02"]).take (3 : Int).toNat)
    ∧ ((firstSeen ["2030-05-01", "2030-05-01", "2030-05-02"]).take (3 : Int).toNat).length
        = min (3 : Int).toNat (firstSeen ["2030-05-01", "2030-05-01", "2030-05-02"]).length
    ∧ (firstSeen ["2030-05-01", "2030-05-01", "2030-05-02"]).take (3 : Int).toNat
        = firstSeen ["2030-05-01", "2030-05-01", "2030-05-02"] := by
  have h := claim_C5_theorem
    [mkMinItem "2030-05-01 00:00:00", mkMinItem "2030-05-01 03:00:00",
     mkMinItem "2030-05-02 00:00:00"]
    [("2030-05-01", mkMinEntry "00:00:00"), ("2030-05-01", mkMinEntry "03:00:00"),
     ("2030-05-02", mkMinEntry "00:00:00")]
    3 (by with_unfolding_all rfl) (by decide)
  exact ⟨h.1, h.2.1, h.2.2 (by decide)⟩

/-! ### Claim C10 — buckets are nonempty, aggregates well-defined -/

/-- C10: every bucket produced by the bucketing loop is nonempty (a bucket
is only created when an entry is appended to it), so per-day aggregates are
well-defined: `max`/`min` over the temperatures never see an empty sequence,
the average-humidity division never divides by zero, and the most-common
condition never scans an empty sequence. -/
theorem claim_C10_theorem (items : List PyVal) (bs : List (String × List FEntry))
    (h : daily_forecasts items [] = .ok bs) :
    ∀ p ∈ bs, p.2 ≠ []
      ∧ (∀ m, pyMax (p.2.map FEntry.temp) ≠ .error (.valueErr m))
      ∧ (∀ m, pyMin (p.2.map FEntry.temp) ≠ .error (.valueErr m))
      ∧ (∀ v m, pyDiv v (.int (p.2.length : Int)) ≠ .error (.zeroDivErr m))
      ∧ (∀ cs, p.2.mapM (fun f => pyLower f.weather_main) = .ok cs →
          ∀ m, mostCommon cs ≠ .error (.valueErr m)) := by
  intro p hp
  have hne : p.2 ≠ [] := daily_forecasts_nonempty items [] bs (by simp) h p hp
  have hmne : p.2.map FEntry.temp ≠ [] := fun hmap => hne (List.map_eq_nil_iff.mp hmap)
  refine ⟨hne, ?_, ?_, ?_, ?_⟩
  · intro m
    exact pyMax_no_valueErr _ hmne m
  · intro m
    exact pyMin_no_valueErr _ hmne m
  · intro v m
    have hlen : p.2.length ≠ 0 := fun h0 => hne (List.length_eq_zero.mp h0)
    have hcast : ((p.2.length : Int)) ≠ 0 := by exact_mod_cast hlen
    exact pyDiv_no_zeroDiv v _ hcast m
  · intro cs hcs m
    exact mostCommon_no_valueErr cs (mapM_lower_nonempty p.2 hne cs hcs) m

/-- C10 witness: two samples on one date produce one two-entry bucket whose
aggregates are safely computable. -/
theorem claim_C10_witness :
    [mkMinEntry "00:00:00", mkMinEntry "12:00:00"] ≠ ([] : List FEntry)
    ∧ pyMax ([mkMinEntry "00:00:00", mkMinEntry "12:00:00"].map FEntry.temp)
        ≠ .error (.valueErr "max() arg is an empty sequence")
    ∧ pyMin ([mkMinEntry "00:00:00", mkMinEntry "12:00:00"].map FEntry.temp)
        ≠ .error (.valueErr "min() arg is an empty sequence")
    ∧ pyDiv (PyVal.int 130)
        (.int (([mkMinEntry "00:00:00", mkMinEntry "12:00:00"] : List FEntry).length : Int))
        ≠ .error (.zeroDivErr "division by zero")
    ∧ mostCommon ["unknown", "unknown"] ≠ .error (.valueErr "max() arg is an empty sequence") := by
  have h := claim_C10_theorem
    [mkMinItem "2031-07-07 00:00:00", mkMinItem "2031-07-07 12:00:00"]
    [("2031-07-07", [mkMinEntry "00:00:00", mkMinEntry "12:00:00"])]
    (by with_unfolding_all rfl)
    ("2031-07-07", [mkMinEntry "00:00:00", mkMinEntry "12:00:00"]) (by simp)
  exact ⟨h.1, h.2.1 "max() arg is an empty sequence", h.2.2.1 "min() arg is an empty sequence",
    h.2.2.2.1 (PyVal.int 130) "division by zero",
    h.2.2.2.2 ["unknown", "unknown"] (by with_unfolding_all rfl) "max() arg is an empty sequence"⟩
